import Mathlib

/-!
# Verification of the lp2p identity and trust management engine

Shallow embedding of `identity.js` (src/unnamed/part_000): the utility
functions (`formatFingerprint`, `generateKeyId`, `generatePeerId`), the
`PeerIdentity` and `TrustRecord` classes, and the `IdentityManager` store.

Modelling conventions:
* JavaScript `Date.now()` is passed in as an explicit `now : Nat` argument.
* SHA-256 (`crypto.subtle.digest`, a Web Crypto platform primitive, not part
  of this repository) is deterministic, so functions that hash their input
  receive the hash output bytes as an explicit argument instead.
* JavaScript truthiness in `a || b` defaults is modelled by the `jsOr*`
  helpers: `undefined`/`null` are `Option.none`, the empty string and the
  number `0` are falsy, objects and arrays are always truthy.
* A JavaScript `Map` is modelled as an association list with JS `Map.set`
  semantics (replace in place, else append); a JS object used as a
  string-keyed dictionary is modelled the same way.
* A thrown exception is modelled with `Except` (for `static` helpers) or by
  returning the unchanged state paired with `Option IdentityError` (for
  `IdentityManager` methods, mirroring that the exception propagates before
  any mutation happens).
-/

namespace LP2P

/-! ## JavaScript truthiness helpers -/

/-- JS `a || b` where `a : Option String` (absent or a string) and the
default is a string: `undefined`, `null` and `""` are falsy. -/
def jsOrS (a : Option String) (b : String) : String :=
  match a with
  | none => b
  | some s => if s = "" then b else s

/-- JS `a || b` where both sides are possibly-absent strings. -/
def jsOrOS (a b : Option String) : Option String :=
  match a with
  | none => b
  | some s => if s = "" then b else some s

/-- JS `a || b` for numbers: `undefined`, `null` and `0` are falsy. -/
def jsOrN (a : Option Nat) (b : Nat) : Nat :=
  match a with
  | none => b
  | some n => if n = 0 then b else n

/-- JS `a || null` for numbers: a falsy value (absent or `0`) becomes `null`. -/
def jsOrNullN (a : Option Nat) : Option Nat :=
  match a with
  | none => none
  | some n => if n = 0 then none else some n

/-- JS `a || null` for strings: a falsy value (absent or `""`) becomes `null`. -/
def jsOrNullS (a : Option String) : Option String :=
  match a with
  | none => none
  | some s => if s = "" then none else some s

/-- JS truthiness test of a possibly-absent string. -/
def jsTruthyS (a : Option String) : Bool :=
  match a with
  | none => false
  | some s => s ≠ ""

/-! ## Hex rendering and id derivation (part_000 lines 69-109)

The source renders a hash byte as `b.toString(16).padStart(2, '0')`. -/

/-- JS `b.toString(16)`: lowercase hexadecimal digits, no padding. -/
def jsToString16 (b : Nat) : String :=
  String.mk (Nat.toDigits 16 b)

/-- JS `s.padStart(2, '0')`. -/
def padStart2 (s : String) : String :=
  if 2 ≤ s.length then s else String.mk (List.replicate (2 - s.length) '0') ++ s

/-- The per-byte hex group used by all three derivation functions:
`b.toString(16).padStart(2, '0')`. -/
def byteHex (b : Nat) : String :=
  padStart2 (jsToString16 b)

/-- JS `s.slice(0, n)` on a string (first `n` characters). -/
def strTake (s : String) (n : Nat) : String :=
  String.mk (s.data.take n)

/-- JS `s.slice(-n)` on a string (last `n` characters; the whole string when
it is shorter than `n`). -/
def strTakeRight (s : String) (n : Nat) : String :=
  String.mk (s.data.drop (s.data.length - n))

/-- JS `s.toUpperCase()` on hex material. -/
def strUpper (s : String) : String :=
  String.mk (s.data.map Char.toUpper)

/-- `formatFingerprint(hashBuffer, short)` (part_000 lines 69-81): colon-join
the two-digit hex groups of the hash bytes; the short form keeps the first 8
groups.  The source recovers the groups from the joined string via
`hex.split(':').slice(0, 8)`; since every group is a nonempty string of hex
digits (never containing `':'`), that split returns exactly the group list,
so the short branch is modelled directly as `groups.take 8`. -/
def formatFingerprint (hashBytes : List Nat) (short : Bool) : String :=
  let groups := hashBytes.map byteHex
  if short then String.intercalate ":" (groups.take 8)
  else String.intercalate ":" groups

/-- `generateKeyId(publicKeyBytes)` (part_000 lines 86-95), with the SHA-256
hash of the public key bytes passed in: concatenate the two-digit hex groups,
keep the last 8 characters (`hex.slice(-8)`), uppercase them. -/
def generateKeyId (hashBytes : List Nat) : String :=
  let hex := String.join (hashBytes.map byteHex)
  strUpper (strTakeRight hex 8)

/-- `generatePeerId(publicKeyBytes)` (part_000 lines 100-109), with the
SHA-256 hash of the public key bytes passed in: `'peer-' + hex.slice(0, 8)`. -/
def generatePeerId (hashBytes : List Nat) : String :=
  let hex := String.join (hashBytes.map byteHex)
  "peer-" ++ strTake hex 8

/-! ### Specification-side hex rendering (for the refinement claims)

The spec describes the rendering as "lowercase hex", two digits per byte;
this independent definition extracts the two nibbles arithmetically. -/

/-- Spec reading: the two lowercase hex digits of one byte. -/
def specHexByte (b : Nat) : String :=
  String.mk [Nat.digitChar (b / 16), Nat.digitChar (b % 16)]

/-- Spec reading: the plain (unseparated) lowercase hex of a byte string. -/
def specHex (hashBytes : List Nat) : String :=
  String.join (hashBytes.map specHexByte)

set_option maxRecDepth 4096 in
theorem byteHex_eq_specHexByte : ∀ b : Nat, b < 256 → byteHex b = specHexByte b := by
  decide

theorem map_byteHex_eq_map_specHexByte (hashBytes : List Nat)
    (h : ∀ b ∈ hashBytes, b < 256) :
    hashBytes.map byteHex = hashBytes.map specHexByte :=
  List.map_congr_left (fun b hb => byteHex_eq_specHexByte b (h b hb))

theorem hexJoin_eq_specHex (hashBytes : List Nat) (h : ∀ b ∈ hashBytes, b < 256) :
    String.join (hashBytes.map byteHex) = specHex hashBytes := by
  unfold specHex
  rw [map_byteHex_eq_map_specHexByte hashBytes h]

/-! ## Constants (part_000 lines 12-27) -/

namespace TRUST_LEVELS

def UNKNOWN : String := "unknown"

def UNTRUSTED : String := "untrusted"

def MARGINAL : String := "marginal"

def FULL : String := "full"

end TRUST_LEVELS

namespace VERIFICATION_METHODS

def NONE : String := "none"

def CODE : String := "code"

def VIDEO : String := "video"

def IN_PERSON : String := "in-person"

def CHAIN : String := "chain"

end VERIFICATION_METHODS

def IDENTITY_VERSION : String := "1.0.0"

/-! ## Profiles and endorsement signatures -/

/-- A profile object (`{name, email, avatar, bio}`). -/
structure Profile where
  name : String
  email : Option String
  avatar : Option String
  bio : Option String
deriving Repr, DecidableEq

/-- One endorsement entry pushed by `TrustRecord.addSignature`
(part_000 lines 390-396): `{signedBy, signature, timestamp}`. -/
structure SignatureEntry where
  signedBy : String
  signature : String
  timestamp : Nat
deriving Repr, DecidableEq

/-! ## JS `Map` / object-dictionary model -/

/-- JS `Map.set` / object property assignment on an association list:
replace the binding in place when the key exists, else append. -/
def mapSet {β : Type} : List (String × β) → String → β → List (String × β)
  | [], k, v => [(k, v)]
  | (k0, v0) :: rest, k, v =>
      if k0 = k then (k, v) :: rest else (k0, v0) :: mapSet rest k v

/-- JS `Map.get` / object property lookup on an association list. -/
def mapGet {β : Type} : List (String × β) → String → Option β
  | [], _ => none
  | (k0, v0) :: rest, k => if k0 = k then some v0 else mapGet rest k

/-! ## PeerIdentity (part_000 lines 115-344) -/

/-- The `data` argument of the `PeerIdentity` constructor; `Option` marks
fields the constructor defaults through JS `||`. -/
structure PeerIdentityData where
  id : String
  publicKey : String
  privateKey : Option String := none
  fingerprint : String
  keyId : String
  created : Option Nat := none
  profile : Option Profile := none
  capabilities : Option (List String) := none
  version : Option String := none
  protocolVersion : Option String := none
deriving Repr, DecidableEq

/-- An identity as held in memory after the constructor ran. -/
structure PeerIdentity where
  id : String
  publicKey : String
  privateKey : Option String
  fingerprint : String
  keyId : String
  created : Nat
  profile : Profile
  capabilities : List String
  version : String
  protocolVersion : String
deriving Repr, DecidableEq

/-- The `PeerIdentity` constructor (part_000 lines 116-134); `now` is
`Date.now()`. -/
def PeerIdentity.create (data : PeerIdentityData) (now : Nat) : PeerIdentity where
  id := data.id
  publicKey := data.publicKey
  privateKey := jsOrNullS data.privateKey
  fingerprint := data.fingerprint
  keyId := data.keyId
  created := jsOrN data.created now
  profile := data.profile.getD { name := "Anonymous", email := none, avatar := none, bio := none }
  capabilities := data.capabilities.getD ["text", "file", "data"]
  version := jsOrS data.version IDENTITY_VERSION
  protocolVersion := jsOrS data.protocolVersion "1.0"

/-- `toJSON()` (part_000 lines 286-299): every field serialized as present. -/
def PeerIdentity.toJSON (i : PeerIdentity) : PeerIdentityData where
  id := i.id
  publicKey := i.publicKey
  privateKey := i.privateKey
  fingerprint := i.fingerprint
  keyId := i.keyId
  created := some i.created
  profile := some i.profile
  capabilities := some i.capabilities
  version := some i.version
  protocolVersion := some i.protocolVersion

/-- `fromJSON(json)` (part_000 lines 304-306): runs the constructor. -/
def PeerIdentity.fromJSON (json : PeerIdentityData) (now : Nat) : PeerIdentity :=
  PeerIdentity.create json now

/-- The profile seed passed to `PeerIdentity.generate`. -/
structure GenProfile where
  name : Option String := none
  email : Option String := none
  avatar : Option String := none
  bio : Option String := none
  capabilities : Option (List String) := none
deriving Repr, DecidableEq

/-- `PeerIdentity.generate(profile)` (part_000 lines 139-190).  The platform
keypair generation and key export are Web Crypto primitives, so the exported
base64 keys and the SHA-256 hash of the exported public key bytes are taken
as arguments (`generate` hashes the same `publicKeyBytes` for the
fingerprint, the key id and the peer id; SHA-256 being deterministic, the
three calls see the same `pubkeyHash`). -/
def PeerIdentity.generate (publicKeyB64 privateKeyB64 : String)
    (pubkeyHash : List Nat) (profile : GenProfile) (now : Nat) : PeerIdentity :=
  PeerIdentity.create {
    id := generatePeerId pubkeyHash
    publicKey := publicKeyB64
    privateKey := some privateKeyB64
    fingerprint := formatFingerprint pubkeyHash true
    keyId := generateKeyId pubkeyHash
    created := some now
    profile := some {
      name := jsOrS profile.name "Anonymous"
      email := jsOrNullS profile.email
      avatar := jsOrNullS profile.avatar
      bio := jsOrNullS profile.bio }
    capabilities := some (profile.capabilities.getD ["text", "file", "data"])
    version := some IDENTITY_VERSION
    protocolVersion := some "1.0" } now

/-- The typed errors thrown by the import paths (part_000 lines 326, 332,
628: `Invalid identity export format`, `Unsupported identity export
version`, `Invalid peers export format`). -/
inductive JSError where
  | invalidIdentityFormat
  | unsupportedIdentityVersion
  | invalidPeersFormat
deriving Repr, DecidableEq

/-- The envelope value stored under the `lp2p-identity-export` marker key
(part_000 lines 312-318). -/
structure IdentityExportBody where
  version : String
  exported : Nat
  identity : PeerIdentityData
deriving Repr, DecidableEq

/-- `exportIdentity()` (part_000 lines 311-319): the export object has the
single key `lp2p-identity-export`. -/
def PeerIdentity.exportIdentity (i : PeerIdentity) (now : Nat) :
    List (String × IdentityExportBody) :=
  [("lp2p-identity-export", { version := "1.0", exported := now, identity := i.toJSON })]

/-- `PeerIdentity.importIdentity(exportData)` (part_000 lines 324-336):
missing marker key and wrong version each throw; otherwise `fromJSON` runs
the constructor at import time `now`. -/
def PeerIdentity.importIdentity (exportData : List (String × IdentityExportBody))
    (now : Nat) : Except JSError PeerIdentity :=
  match mapGet exportData "lp2p-identity-export" with
  | none => .error .invalidIdentityFormat
  | some data =>
      if data.version ≠ "1.0" then .error .unsupportedIdentityVersion
      else .ok (PeerIdentity.fromJSON data.identity now)

/-! ## TrustRecord (part_000 lines 350-426) -/

/-- The `data` argument of the `TrustRecord` constructor; `Option` marks
fields the constructor defaults through JS `||` (`trustedBy` has no default
in the source and is copied as-is, so it stays `Option` in the record). -/
structure TrustRecordData where
  peerId : String
  publicKey : Option String := none
  fingerprint : Option String := none
  keyId : Option String := none
  trustLevel : Option String := none
  trustedBy : Option String := none
  trustedAt : Option Nat := none
  verified : Option Bool := none
  verifiedMethod : Option String := none
  verifiedAt : Option Nat := none
  profile : Option Profile := none
  introducedBy : Option String := none
  signatures : Option (List SignatureEntry) := none
  notes : Option String := none
deriving Repr, DecidableEq

/-- A trust record as held in memory after the constructor ran. -/
structure TrustRecord where
  peerId : String
  publicKey : Option String
  fingerprint : Option String
  keyId : Option String
  trustLevel : String
  trustedBy : Option String
  trustedAt : Nat
  verified : Bool
  verifiedMethod : String
  verifiedAt : Option Nat
  profile : Profile
  introducedBy : Option String
  signatures : List SignatureEntry
  notes : String
deriving Repr, DecidableEq

/-- The `TrustRecord` constructor (part_000 lines 351-371); `now` is
`Date.now()`. -/
def TrustRecord.create (data : TrustRecordData) (now : Nat) : TrustRecord where
  peerId := data.peerId
  publicKey := data.publicKey
  fingerprint := data.fingerprint
  keyId := data.keyId
  trustLevel := jsOrS data.trustLevel TRUST_LEVELS.UNKNOWN
  trustedBy := data.trustedBy
  trustedAt := jsOrN data.trustedAt now
  verified := data.verified.getD false
  verifiedMethod := jsOrS data.verifiedMethod VERIFICATION_METHODS.NONE
  verifiedAt := jsOrNullN data.verifiedAt
  profile := data.profile.getD { name := "Unknown", email := none, avatar := none, bio := none }
  introducedBy := jsOrNullS data.introducedBy
  signatures := data.signatures.getD []
  notes := jsOrS data.notes ""

/-- `setTrust(level, verifiedMethod = null)` (part_000 lines 376-385):
always updates `trustLevel` and `trustedAt`; only a truthy `verifiedMethod`
touches the verification fields. -/
def TrustRecord.setTrust (r : TrustRecord) (level : String)
    (verifiedMethod : Option String) (now : Nat) : TrustRecord :=
  let r1 := { r with trustLevel := level, trustedAt := now }
  if jsTruthyS verifiedMethod then
    { r1 with verified := true, verifiedMethod := verifiedMethod.getD "", verifiedAt := some now }
  else r1

/-- `addSignature(signedBy, signature)` (part_000 lines 390-396): push one
endorsement entry. -/
def TrustRecord.addSignature (r : TrustRecord) (signedBy sig : String)
    (now : Nat) : TrustRecord :=
  { r with signatures := r.signatures ++ [{ signedBy := signedBy, signature := sig, timestamp := now }] }

/-- `toJSON()` (part_000 lines 401-418): every field serialized as present. -/
def TrustRecord.toJSON (r : TrustRecord) : TrustRecordData where
  peerId := r.peerId
  publicKey := r.publicKey
  fingerprint := r.fingerprint
  keyId := r.keyId
  trustLevel := some r.trustLevel
  trustedBy := r.trustedBy
  trustedAt := some r.trustedAt
  verified := some r.verified
  verifiedMethod := some r.verifiedMethod
  verifiedAt := r.verifiedAt
  profile := some r.profile
  introducedBy := r.introducedBy
  signatures := some r.signatures
  notes := some r.notes

/-- `fromJSON(json)` (part_000 lines 423-425): runs the constructor. -/
def TrustRecord.fromJSON (json : TrustRecordData) (now : Nat) : TrustRecord :=
  TrustRecord.create json now

/-! ## IdentityManager (part_000 lines 432-650)

Persistence (`save`/`load` against `localStorage`) is best-effort and does
not alter the in-memory state on the paths modelled here, so `save` calls
are no-ops in the embedding. -/

/-- The manager state (part_000 lines 433-438). -/
structure IdentityManager where
  ownIdentity : Option PeerIdentity
  knownPeers : List (String × TrustRecord)
deriving Repr, DecidableEq

/-- The `IdentityManager` constructor: empty store. -/
def IdentityManager.init : IdentityManager where
  ownIdentity := none
  knownPeers := []

/-- The announced public info fed into `addPeer` (the fields `addPeer`
reads: `id`, `publicKey`, `fingerprint`, `keyId`, `profile`). -/
structure PeerInfo where
  id : String
  publicKey : Option String := none
  fingerprint : Option String := none
  keyId : Option String := none
  profile : Option Profile := none
deriving Repr, DecidableEq

/-- `getPeer(peerId)` (part_000 lines 569-571). -/
def IdentityManager.getPeer (m : IdentityManager) (peerId : String) : Option TrustRecord :=
  mapGet m.knownPeers peerId

/-- `addPeer(peerInfo, introducedBy = null)` (part_000 lines 539-564).
An existing record is refreshed in place (`profile`, `publicKey` only, each
through JS `||`, and a profile object is always truthy); otherwise a fresh
record is created via the `TrustRecord` constructor.  The JS method returns
`this.knownPeers.get(peerInfo.id)` of the updated store, i.e. `getPeer` of
the result.  `trustedBy: this.ownIdentity.id` presumes an initialized
manager (`ownIdentity` present) and is modelled with `Option.map`. -/
def IdentityManager.addPeer (m : IdentityManager) (peerInfo : PeerInfo)
    (introducedBy : Option String) (now : Nat) : IdentityManager :=
  match mapGet m.knownPeers peerInfo.id with
  | some existing =>
      let updated := { existing with
        profile := peerInfo.profile.getD existing.profile
        publicKey := jsOrOS peerInfo.publicKey existing.publicKey }
      { m with knownPeers := mapSet m.knownPeers peerInfo.id updated }
  | none =>
      let record := TrustRecord.create {
        peerId := peerInfo.id
        publicKey := peerInfo.publicKey
        fingerprint := peerInfo.fingerprint
        keyId := peerInfo.keyId
        trustLevel := some TRUST_LEVELS.UNKNOWN
        trustedBy := m.ownIdentity.map PeerIdentity.id
        profile := some (peerInfo.profile.getD { name := peerInfo.id, email := none, avatar := none, bio := none })
        introducedBy := introducedBy } now
      { m with knownPeers := mapSet m.knownPeers peerInfo.id record }

/-- `setTrust(peerId, level, verifiedMethod = null)` (part_000 lines
583-589): a missing record is a silent no-op (`if (peer)`), no error. -/
def IdentityManager.setTrust (m : IdentityManager) (peerId level : String)
    (verifiedMethod : Option String) (now : Nat) : IdentityManager :=
  match mapGet m.knownPeers peerId with
  | some peer =>
      { m with knownPeers := mapSet m.knownPeers peerId (peer.setTrust level verifiedMethod now) }
  | none => m

/-- `importIdentity(exportData)` (part_000 lines 604-608): the static
helper runs first; a throw propagates before `this.ownIdentity` is
assigned, leaving the whole manager untouched. -/
def IdentityManager.importIdentity (m : IdentityManager)
    (exportData : List (String × IdentityExportBody)) (now : Nat) :
    IdentityManager × Option JSError :=
  match PeerIdentity.importIdentity exportData now with
  | .error e => (m, some e)
  | .ok i => ({ m with ownIdentity := some i }, none)

/-- The envelope value stored under the `lp2p-peers-export` marker key
(part_000 lines 614-620). -/
structure PeersExportBody where
  version : String
  exported : Nat
  peers : List TrustRecordData
deriving Repr, DecidableEq

/-- `exportKnownPeers()` (part_000 lines 613-621). -/
def IdentityManager.exportKnownPeers (m : IdentityManager) (now : Nat) :
    List (String × PeersExportBody) :=
  [("lp2p-peers-export", {
    version := "1.0"
    exported := now
    peers := (m.knownPeers.map Prod.snd).map TrustRecord.toJSON })]

/-- `importKnownPeers(exportData)` (part_000 lines 626-639): a missing
marker key throws (state untouched); otherwise every imported record is
stored with `Map.set` under its own `peerId` — unconditionally, with no
version check and no timestamp comparison. -/
def IdentityManager.importKnownPeers (m : IdentityManager)
    (exportData : List (String × PeersExportBody)) (now : Nat) :
    IdentityManager × Option JSError :=
  match mapGet exportData "lp2p-peers-export" with
  | none => (m, some .invalidPeersFormat)
  | some data =>
      let merged := data.peers.foldl
        (fun kp peerData =>
          let record := TrustRecord.fromJSON peerData now
          mapSet kp record.peerId record)
        m.knownPeers
      ({ m with knownPeers := merged }, none)

/-! ## Association-list map lemmas -/

theorem mapGet_mapSet_self {β : Type} (l : List (String × β)) (k : String) (v : β) :
    mapGet (mapSet l k v) k = some v := by
  induction l with
  | nil => simp [mapSet, mapGet]
  | cons hd tl ih =>
    obtain ⟨k0, v0⟩ := hd
    by_cases hk : k0 = k
    · simp [mapSet, mapGet, hk]
    · simp [mapSet, mapGet, hk, ih]

theorem mapGet_mapSet_ne {β : Type} (l : List (String × β)) (k k' : String) (v : β)
    (hne : k' ≠ k) : mapGet (mapSet l k v) k' = mapGet l k' := by
  have hks : ¬k = k' := fun h => hne h.symm
  induction l with
  | nil => simp [mapSet, mapGet, hks]
  | cons hd tl ih =>
    obtain ⟨k0, v0⟩ := hd
    by_cases hk : k0 = k
    · subst hk
      simp [mapSet, mapGet, hks]
    · by_cases hk' : k0 = k'
      · subst hk'
        simp [mapSet, mapGet, hk]
      · simp [mapSet, mapGet, hk, hk', ih]

theorem mapSet_of_mapGet_eq {β : Type} (l : List (String × β)) (k : String) (v : β)
    (h : mapGet l k = some v) : mapSet l k v = l := by
  induction l with
  | nil => simp [mapGet] at h
  | cons hd tl ih =>
    obtain ⟨k0, v0⟩ := hd
    by_cases hk : k0 = k
    · subst hk
      simp [mapGet] at h
      simp [mapSet, h]
    · simp [mapGet, hk] at h
      simp [mapSet, hk, ih h]

theorem mapSet_mapSet {β : Type} (l : List (String × β)) (k : String) (v1 v2 : β) :
    mapSet (mapSet l k v1) k v2 = mapSet l k v2 := by
  induction l with
  | nil => simp [mapSet]
  | cons hd tl ih =>
    obtain ⟨k0, v0⟩ := hd
    by_cases hk : k0 = k
    · simp [mapSet, hk]
    · simp [mapSet, hk, ih]

theorem mem_mapSet {β : Type} (l : List (String × β)) (k : String) (v : β)
    (x : String × β) (hx : x ∈ mapSet l k v) : x = (k, v) ∨ x ∈ l := by
  induction l with
  | nil =>
    simp [mapSet] at hx
    exact Or.inl hx
  | cons hd tl ih =>
    obtain ⟨k0, v0⟩ := hd
    by_cases hk : k0 = k
    · simp [mapSet, hk] at hx
      rcases hx with h | h
      · exact Or.inl h
      · exact Or.inr (List.mem_cons_of_mem _ h)
    · simp [mapSet, hk] at hx
      rcases hx with h | h
      · exact Or.inr (by simp [h])
      · rcases ih h with h' | h'
        · exact Or.inl h'
        · exact Or.inr (List.mem_cons_of_mem _ h')

theorem mem_of_mapGet_eq {β : Type} (l : List (String × β)) (k : String) (v : β)
    (h : mapGet l k = some v) : (k, v) ∈ l := by
  induction l with
  | nil => simp [mapGet] at h
  | cons hd tl ih =>
    obtain ⟨k0, v0⟩ := hd
    by_cases hk : k0 = k
    · subst hk
      simp [mapGet] at h
      simp [h]
    · simp [mapGet, hk] at h
      exact List.mem_cons_of_mem _ (ih h)

/-! ## JS `||` helper lemmas -/

theorem jsOrOS_idem (a b : Option String) : jsOrOS a (jsOrOS a b) = jsOrOS a b := by
  cases a with
  | none => rfl
  | some s =>
    by_cases hs : s = ""
    · simp [jsOrOS, hs]
    · simp [jsOrOS, hs]

theorem jsOrOS_self (a : Option String) : jsOrOS a a = a := by
  cases a with
  | none => rfl
  | some s =>
    by_cases hs : s = ""
    · simp [jsOrOS, hs]
    · simp [jsOrOS, hs]

theorem getD_getD {α : Type} (a : Option α) (b : α) : a.getD (a.getD b) = a.getD b := by
  cases a <;> rfl

theorem jsOrNullS_eq_self (a : Option String) (h : a ≠ some "") : jsOrNullS a = a := by
  cases a with
  | none => rfl
  | some s =>
    have hs : s ≠ "" := fun h' => h (by rw [h'])
    simp [jsOrNullS, hs]

theorem jsOrN_some_ne (n d : Nat) (h : n ≠ 0) : jsOrN (some n) d = n := by
  simp [jsOrN, h]

theorem jsOrS_some_ne (s d : String) (h : s ≠ "") : jsOrS (some s) d = s := by
  simp [jsOrS, h]

/-! ## Operation traces over the manager -/

/-- Modelled from the spec: the `TrustStore` operation `addSignature(peerId,
signedByPeerId, signatureBytes)` (spec §4.4) — "appends an endorsement
record; does not itself change `trustLevel`".  The source supplies only the
record-level `TrustRecord.addSignature` (part_000 lines 390-396); this
manager-level dispatch applies it to the stored record; a missing record is
a valid absent result (no-op), like `setTrust`. -/
def IdentityManager.addSignature (m : IdentityManager) (peerId signedBy sig : String)
    (now : Nat) : IdentityManager :=
  match mapGet m.knownPeers peerId with
  | some r =>
      { m with knownPeers := mapSet m.knownPeers peerId (r.addSignature signedBy sig now) }
  | none => m

/-- One mutating operation on the trust store. -/
inductive Op where
  | addPeer (info : PeerInfo) (introducedBy : Option String) (now : Nat)
  | addSignature (peerId signedBy sig : String) (now : Nat)
  | setTrust (peerId level : String) (verifiedMethod : Option String) (now : Nat)
deriving Repr, DecidableEq

/-- Apply one operation to the manager. -/
def IdentityManager.applyOp (m : IdentityManager) : Op → IdentityManager
  | .addPeer info ib now => m.addPeer info ib now
  | .addSignature pid sb sig now => m.addSignature pid sb sig now
  | .setTrust pid level vm now => m.setTrust pid level vm now

/-- Apply a sequence of operations, left to right. -/
def IdentityManager.run (m : IdentityManager) (ops : List Op) : IdentityManager :=
  ops.foldl IdentityManager.applyOp m

/-- Whether an operation is a `setTrust` call with level `full`. -/
def Op.isSetTrustFull : Op → Bool
  | .setTrust _ level _ _ => level == TRUST_LEVELS.FULL
  | _ => false

/-- No stored trust record has `trustLevel == "full"`. -/
def NoFullTrust (m : IdentityManager) : Prop :=
  ∀ e ∈ m.knownPeers, e.2.trustLevel ≠ TRUST_LEVELS.FULL

theorem setTrust_trustLevel (r : TrustRecord) (level : String)
    (vm : Option String) (now : Nat) : (r.setTrust level vm now).trustLevel = level := by
  unfold TrustRecord.setTrust
  split <;> rfl

theorem noFull_addPeer (m : IdentityManager) (info : PeerInfo) (ib : Option String)
    (now : Nat) (h : NoFullTrust m) : NoFullTrust (m.addPeer info ib now) := by
  intro e he
  cases hm : mapGet m.knownPeers info.id with
  | some r =>
    simp only [IdentityManager.addPeer, hm] at he
    rcases mem_mapSet _ _ _ _ he with h' | h'
    · subst h'
      simpa using h _ (mem_of_mapGet_eq _ _ _ hm)
    · exact h _ h'
  | none =>
    simp only [IdentityManager.addPeer, hm] at he
    rcases mem_mapSet _ _ _ _ he with h' | h'
    · subst h'
      simp [TrustRecord.create, jsOrS, TRUST_LEVELS.UNKNOWN, TRUST_LEVELS.FULL]
    · exact h _ h'

theorem noFull_addSignature (m : IdentityManager) (pid sb sig : String) (now : Nat)
    (h : NoFullTrust m) : NoFullTrust (m.addSignature pid sb sig now) := by
  intro e he
  cases hm : mapGet m.knownPeers pid with
  | some r =>
    simp only [IdentityManager.addSignature, hm] at he
    rcases mem_mapSet _ _ _ _ he with h' | h'
    · subst h'
      simpa [TrustRecord.addSignature] using h _ (mem_of_mapGet_eq _ _ _ hm)
    · exact h _ h'
  | none =>
    simp only [IdentityManager.addSignature, hm] at he
    exact h _ he

theorem noFull_setTrust (m : IdentityManager) (pid level : String)
    (vm : Option String) (now : Nat) (hlvl : level ≠ TRUST_LEVELS.FULL)
    (h : NoFullTrust m) : NoFullTrust (m.setTrust pid level vm now) := by
  intro e he
  cases hm : mapGet m.knownPeers pid with
  | some r =>
    simp only [IdentityManager.setTrust, hm] at he
    rcases mem_mapSet _ _ _ _ he with h' | h'
    · subst h'
      simpa [setTrust_trustLevel] using hlvl
    · exact h _ h'
  | none =>
    simp only [IdentityManager.setTrust, hm] at he
    exact h _ he

theorem noFull_run (m : IdentityManager) (ops : List Op)
    (hops : ∀ op ∈ ops, op.isSetTrustFull = false) (h : NoFullTrust m) :
    NoFullTrust (m.run ops) := by
  induction ops generalizing m with
  | nil => exact h
  | cons op rest ih =>
    have hop := hops op (List.mem_cons_self op rest)
    have hrest : ∀ o ∈ rest, o.isSetTrustFull = false :=
      fun o ho => hops o (List.mem_cons_of_mem op ho)
    have hstep : NoFullTrust (m.applyOp op) := by
      cases op with
      | addPeer info ib now => exact noFull_addPeer m info ib now h
      | addSignature pid sb sig now => exact noFull_addSignature m pid sb sig now h
      | setTrust pid level vm now =>
        have hlvl : level ≠ TRUST_LEVELS.FULL := by
          simpa [Op.isSetTrustFull] using hop
        exact noFull_setTrust m pid level vm now hlvl h
    exact ih (m.applyOp op) hrest hstep

/-! ## Concrete sample values used by witnesses and counterexamples -/

/-- A concrete own identity for witness states. -/
def sampleIdentity : PeerIdentity :=
  PeerIdentity.create { id := "peer-11223344", publicKey := "PUBKEY", privateKey := some "PRIVKEY", fingerprint := "00:11:22:33:44:55:66:77", keyId := "AABBCCDD", created := some 1000 } 1000

/-- A concrete stored trust record (cached public key `"KEYA"`). -/
def sampleRecord : TrustRecord :=
  TrustRecord.create { peerId := "peer-x", publicKey := some "KEYA", fingerprint := some "aa:bb:cc:dd", keyId := some "AABB", trustedBy := some "peer-11223344" } 100

/-- A concrete manager holding `sampleRecord` under `"peer-x"`. -/
def sampleStore : IdentityManager where
  ownIdentity := some sampleIdentity
  knownPeers := [("peer-x", sampleRecord)]

/-- Announced info re-announcing `"peer-x"` with a different public key. -/
def sampleInfoB : PeerInfo :=
  { id := "peer-x", publicKey := some "KEYB", fingerprint := some "ee:ff:00:11", keyId := some "EEFF", profile := some { name := "Y", email := none, avatar := none, bio := none } }

/-! ## Claims -/

/-- C1: for every manager state and peer id that already has a TrustRecord,
`addPeer` for that id changes at most the cached `publicKey` and `profile`:
`trustLevel`, `verified`, `verifiedMethod`, `verifiedAt`, `introducedBy`,
`signatures`, `trustedBy`, `trustedAt` (and also `peerId`, `fingerprint`,
`keyId`, `notes`) are unchanged; in particular after
`setTrust(p, "full", "in-person")` a subsequent `addPeer` for `p` leaves
`trustLevel` at `"full"`. -/
theorem claim_C1 :
    (∀ (m : IdentityManager) (info : PeerInfo) (ib : Option String) (now : Nat) (r : TrustRecord),
      m.getPeer info.id = some r →
      ∃ r2, (m.addPeer info ib now).getPeer info.id = some r2
        ∧ r2.trustLevel = r.trustLevel ∧ r2.verified = r.verified
        ∧ r2.verifiedMethod = r.verifiedMethod ∧ r2.verifiedAt = r.verifiedAt
        ∧ r2.introducedBy = r.introducedBy ∧ r2.signatures = r.signatures
        ∧ r2.trustedBy = r.trustedBy ∧ r2.trustedAt = r.trustedAt
        ∧ r2.peerId = r.peerId ∧ r2.fingerprint = r.fingerprint
        ∧ r2.keyId = r.keyId ∧ r2.notes = r.notes)
  ∧ (∀ (m : IdentityManager) (p : String) (info : PeerInfo) (ib : Option String) (t1 t2 : Nat),
      info.id = p → m.getPeer p ≠ none →
      (((m.setTrust p TRUST_LEVELS.FULL (some VERIFICATION_METHODS.IN_PERSON) t1).addPeer info ib t2).getPeer p).map TrustRecord.trustLevel = some TRUST_LEVELS.FULL) := by
  constructor
  · intro m info ib now r h
    have hm : mapGet m.knownPeers info.id = some r := h
    simp only [IdentityManager.addPeer, IdentityManager.getPeer, hm]
    exact ⟨_, mapGet_mapSet_self _ _ _, rfl, rfl, rfl, rfl, rfl, rfl, rfl, rfl, rfl, rfl, rfl, rfl⟩
  · intro m p info ib t1 t2 hid hne
    subst hid
    obtain ⟨r, hm⟩ : ∃ r, mapGet m.knownPeers info.id = some r := by
      cases hg : m.getPeer info.id with
      | none => exact absurd hg hne
      | some r => exact ⟨r, hg⟩
    have hmid : mapGet (m.setTrust info.id TRUST_LEVELS.FULL (some VERIFICATION_METHODS.IN_PERSON) t1).knownPeers info.id = some (r.setTrust TRUST_LEVELS.FULL (some VERIFICATION_METHODS.IN_PERSON) t1) := by
      simp only [IdentityManager.setTrust, hm]
      exact mapGet_mapSet_self _ _ _
    simp only [IdentityManager.addPeer, IdentityManager.getPeer, hmid, mapGet_mapSet_self]
    simp [setTrust_trustLevel]

/-- Witness for C1 at a concrete store: the record under `"peer-x"` keeps
all its trust fields across a re-announcement, and stays `"full"` after an
explicit full verification. -/
theorem claim_C1_witness :
    (∃ r2, (sampleStore.addPeer sampleInfoB none 200).getPeer "peer-x" = some r2
      ∧ r2.trustLevel = sampleRecord.trustLevel ∧ r2.verified = sampleRecord.verified
      ∧ r2.verifiedMethod = sampleRecord.verifiedMethod ∧ r2.verifiedAt = sampleRecord.verifiedAt
      ∧ r2.introducedBy = sampleRecord.introducedBy ∧ r2.signatures = sampleRecord.signatures
      ∧ r2.trustedBy = sampleRecord.trustedBy ∧ r2.trustedAt = sampleRecord.trustedAt
      ∧ r2.peerId = sampleRecord.peerId ∧ r2.fingerprint = sampleRecord.fingerprint
      ∧ r2.keyId = sampleRecord.keyId ∧ r2.notes = sampleRecord.notes)
    ∧ (((sampleStore.setTrust "peer-x" TRUST_LEVELS.FULL (some VERIFICATION_METHODS.IN_PERSON) 150).addPeer sampleInfoB none 200).getPeer "peer-x").map TrustRecord.trustLevel = some TRUST_LEVELS.FULL :=
  ⟨claim_C1.1 sampleStore sampleInfoB none 200 sampleRecord rfl,
   claim_C1.2 sampleStore "peer-x" sampleInfoB none 150 200 rfl (by decide)⟩

/-- C2: starting from any state with no `"full"` record (the fresh manager
is one), a trace of `addPeer` / `addSignature` / `setTrust`-below-`full`
operations never produces a record with `trustLevel == "full"`; a freshly
created record starts at `"unknown"`, and `addSignature` only appends one
entry to `signatures`. -/
theorem claim_C2 :
    NoFullTrust IdentityManager.init
  ∧ (∀ (m : IdentityManager), NoFullTrust m → ∀ ops : List Op,
      (∀ op ∈ ops, op.isSetTrustFull = false) → NoFullTrust (m.run ops))
  ∧ (∀ (m : IdentityManager) (info : PeerInfo) (ib : Option String) (now : Nat),
      m.getPeer info.id = none →
      ((m.addPeer info ib now).getPeer info.id).map TrustRecord.trustLevel = some TRUST_LEVELS.UNKNOWN)
  ∧ (∀ (r : TrustRecord) (sb sig : String) (now : Nat),
      r.addSignature sb sig now = { r with signatures := r.signatures ++ [{ signedBy := sb, signature := sig, timestamp := now }] }) := by
  refine ⟨?_, ?_, ?_, ?_⟩
  · intro e he
    simp [IdentityManager.init] at he
  · exact fun m h ops hops => noFull_run m ops hops h
  · intro m info ib now h
    have hm : mapGet m.knownPeers info.id = none := h
    simp only [IdentityManager.addPeer, IdentityManager.getPeer, hm, mapGet_mapSet_self]
    simp [TrustRecord.create, jsOrS, TRUST_LEVELS.UNKNOWN]
  · intro r sb sig now
    rfl

/-- Witness for C2: a concrete trace (add two peers, endorse one, distrust
one) on the fresh manager leaves no `"full"` record; the fresh record starts
`"unknown"`; a concrete `addSignature` appends its entry. -/
theorem claim_C2_witness :
    NoFullTrust (IdentityManager.init.run
      [Op.addPeer { id := "peer-x" } none 1,
       Op.addPeer { id := "peer-y" } (some "peer-x") 2,
       Op.addSignature "peer-y" "peer-x" "SIG" 3,
       Op.setTrust "peer-x" TRUST_LEVELS.MARGINAL none 4])
    ∧ ((IdentityManager.init.addPeer { id := "peer-x" } none 1).getPeer "peer-x").map TrustRecord.trustLevel = some TRUST_LEVELS.UNKNOWN
    ∧ sampleRecord.addSignature "peer-11223344" "SIG" 3 = { sampleRecord with signatures := sampleRecord.signatures ++ [{ signedBy := "peer-11223344", signature := "SIG", timestamp := 3 }] } :=
  ⟨claim_C2.2.1 IdentityManager.init claim_C2.1 _ (by decide),
   claim_C2.2.2.1 IdentityManager.init { id := "peer-x" } none 1 rfl,
   claim_C2.2.2.2 sampleRecord "peer-11223344" "SIG" 3⟩

/-- C7: `addPeer` is idempotent — a second call with the identical announced
info (and the same `introducedBy`) leaves the whole store, and hence the
resulting TrustRecord in every field, exactly as after the first call. -/
theorem claim_C7 (m : IdentityManager) (info : PeerInfo) (ib : Option String) (t1 t2 : Nat) :
    (m.addPeer info ib t1).addPeer info ib t2 = m.addPeer info ib t1
    ∧ ((m.addPeer info ib t1).addPeer info ib t2).getPeer info.id = (m.addPeer info ib t1).getPeer info.id := by
  have hmain : (m.addPeer info ib t1).addPeer info ib t2 = m.addPeer info ib t1 := by
    cases hm : mapGet m.knownPeers info.id with
    | some r =>
      simp only [IdentityManager.addPeer, hm, mapGet_mapSet_self, mapSet_mapSet]
      simp [getD_getD, jsOrOS_idem]
    | none =>
      simp only [IdentityManager.addPeer, hm, mapGet_mapSet_self, mapSet_mapSet]
      simp [TrustRecord.create, getD_getD, jsOrOS_self]
  exact ⟨hmain, by rw [hmain]⟩

/-- C10: `TrustRecord.setTrust` without a verification method updates only
`trustLevel` and `trustedAt` (so `verified`, `verifiedMethod`, `verifiedAt`
keep their prior values), and `IdentityManager.setTrust` for an unknown peer
id leaves the whole store unchanged and raises no error. -/
theorem claim_C10 :
    (∀ (r : TrustRecord) (level : String) (now : Nat),
      r.setTrust level none now = { r with trustLevel := level, trustedAt := now })
  ∧ (∀ (m : IdentityManager) (pid level : String) (vm : Option String) (now : Nat),
      m.getPeer pid = none → m.setTrust pid level vm now = m) := by
  constructor
  · intro r level now
    rfl
  · intro m pid level vm now h
    have hm : mapGet m.knownPeers pid = none := h
    simp only [IdentityManager.setTrust, hm]

/-- Witness for C10: demoting the sample record to `"untrusted"` with no
method keeps its verification fields, and `setTrust` on the fresh manager
(no record for `"peer-z"`) is a no-op. -/
theorem claim_C10_witness :
    sampleRecord.setTrust TRUST_LEVELS.UNTRUSTED none 7 = { sampleRecord with trustLevel := TRUST_LEVELS.UNTRUSTED, trustedAt := 7 }
    ∧ IdentityManager.init.setTrust "peer-z" TRUST_LEVELS.UNTRUSTED none 5 = IdentityManager.init :=
  ⟨claim_C10.1 sampleRecord TRUST_LEVELS.UNTRUSTED 7,
   claim_C10.2 IdentityManager.init "peer-z" TRUST_LEVELS.UNTRUSTED none 5 rfl⟩

/-- Round trip of the `PeerIdentity` constructor through `toJSON`: identity
on every identity the program can actually build (nonzero creation time, no
empty-string private key or version markers — the constructor never
produces those). -/
theorem fromJSON_toJSON (i : PeerIdentity) (n : Nat) (h1 : i.created ≠ 0)
    (h2 : i.privateKey ≠ some "") (h3 : i.version ≠ "") (h4 : i.protocolVersion ≠ "") :
    PeerIdentity.fromJSON i.toJSON n = i := by
  unfold PeerIdentity.fromJSON
  cases i with
  | mk id pk sk fp kid cr prof cap ver pver =>
    simp only [PeerIdentity.toJSON] at *
    simp [PeerIdentity.create, jsOrNullS_eq_self _ h2, jsOrN_some_ne _ _ h1,
      jsOrS_some_ne _ _ h3, jsOrS_some_ne _ _ h4]

/-! ## Further sample values for witnesses and counterexamples -/

/-- An identity bundle carrying an unsupported version marker. -/
def badVersionBundle : List (String × IdentityExportBody) :=
  [("lp2p-identity-export", { version := "2.0", exported := 0, identity := PeerIdentity.toJSON sampleIdentity })]

/-- A serialized duplicate of `"peer-a"` with the older timestamp 50. -/
def staleRecordData : TrustRecordData :=
  TrustRecord.toJSON (TrustRecord.create { peerId := "peer-a", trustedAt := some 50 } 50)

/-- A store already holding `"peer-a"` with the newer timestamp 100. -/
def dupStore : IdentityManager where
  ownIdentity := none
  knownPeers := [("peer-a", TrustRecord.create { peerId := "peer-a", trustedAt := some 100 } 100)]

/-- A peers bundle importing the stale duplicate of `"peer-a"`. -/
def dupBundle : List (String × PeersExportBody) :=
  [("lp2p-peers-export", { version := "1.0", exported := 0, peers := [staleRecordData] })]

/-- A 32-byte hash value (the length of a SHA-256 digest). -/
def hashRange32 : List Nat := List.range 32

/-- C5: importing a bundle whose top-level export marker is missing, or (for
identity bundles) whose version is not `"1.0"`, yields the typed error and
leaves the manager (own identity and known-peers map) exactly as before;
for both `importIdentity` and `importKnownPeers`. -/
theorem claim_C5 :
    (∀ (m : IdentityManager) (b : List (String × IdentityExportBody)) (now : Nat),
      mapGet b "lp2p-identity-export" = none →
      m.importIdentity b now = (m, some JSError.invalidIdentityFormat))
  ∧ (∀ (m : IdentityManager) (b : List (String × IdentityExportBody)) (body : IdentityExportBody) (now : Nat),
      mapGet b "lp2p-identity-export" = some body → body.version ≠ "1.0" →
      m.importIdentity b now = (m, some JSError.unsupportedIdentityVersion))
  ∧ (∀ (m : IdentityManager) (pb : List (String × PeersExportBody)) (now : Nat),
      mapGet pb "lp2p-peers-export" = none →
      m.importKnownPeers pb now = (m, some JSError.invalidPeersFormat)) := by
  refine ⟨?_, ?_, ?_⟩
  · intro m b now h
    simp only [IdentityManager.importIdentity, PeerIdentity.importIdentity, h]
  · intro m b body now h hv
    simp only [IdentityManager.importIdentity, PeerIdentity.importIdentity, h]
    simp [hv]
  · intro m pb now h
    simp only [IdentityManager.importKnownPeers, h]

/-- Witness for C5: the empty object as identity bundle (missing marker), a
concrete version-`"2.0"` identity bundle, and the empty object as peers
bundle each leave the concrete store untouched with the typed error. -/
theorem claim_C5_witness :
    sampleStore.importIdentity [] 9 = (sampleStore, some JSError.invalidIdentityFormat)
    ∧ sampleStore.importIdentity badVersionBundle 9 = (sampleStore, some JSError.unsupportedIdentityVersion)
    ∧ sampleStore.importKnownPeers [] 9 = (sampleStore, some JSError.invalidPeersFormat) :=
  ⟨claim_C5.1 sampleStore [] 9 rfl,
   claim_C5.2.1 sampleStore badVersionBundle _ 9 rfl (by decide),
   claim_C5.2.2 sampleStore [] 9 rfl⟩

/-- C8: `importIdentity ∘ exportIdentity` reconstructs the identity in all
fields (for every identity the constructor can produce: nonzero `created`,
no empty-string `privateKey`/`version`/`protocolVersion`), and the exported
envelope is exactly
`{"lp2p-identity-export": {version: "1.0", exported: t, identity: toJSON}}`. -/
theorem claim_C8 (i : PeerIdentity) (t nowImport : Nat) (h1 : i.created ≠ 0)
    (h2 : i.privateKey ≠ some "") (h3 : i.version ≠ "") (h4 : i.protocolVersion ≠ "") :
    PeerIdentity.importIdentity (i.exportIdentity t) nowImport = Except.ok i
    ∧ i.exportIdentity t = [("lp2p-identity-export", { version := "1.0", exported := t, identity := i.toJSON })] := by
  constructor
  · simp only [PeerIdentity.importIdentity, PeerIdentity.exportIdentity, mapGet]
    simp [fromJSON_toJSON i nowImport h1 h2 h3 h4]
  · rfl

/-- Witness for C8 at the concrete sample identity (with its private key). -/
theorem claim_C8_witness :
    PeerIdentity.importIdentity (sampleIdentity.exportIdentity 2000) 3000 = Except.ok sampleIdentity
    ∧ sampleIdentity.exportIdentity 2000 = [("lp2p-identity-export", { version := "1.0", exported := 2000, identity := sampleIdentity.toJSON })] :=
  claim_C8 sampleIdentity 2000 3000 (by decide) (by decide) (by decide) (by decide)

/-- C9: on the (deterministic) SHA-256 hash bytes of the public key,
`generateKeyId` is the last 8 hex characters of the hash, uppercased, and
`generatePeerId` is `"peer-"` followed by the first 8 hex characters
(lowercase); both are pure functions of their input by construction. -/
theorem claim_C9 (hashBytes : List Nat) (h : ∀ b ∈ hashBytes, b < 256) :
    generateKeyId hashBytes = strUpper (strTakeRight (specHex hashBytes) 8)
    ∧ generatePeerId hashBytes = "peer-" ++ strTake (specHex hashBytes) 8 := by
  constructor
  · unfold generateKeyId
    rw [hexJoin_eq_specHex hashBytes h]
  · unfold generatePeerId
    rw [hexJoin_eq_specHex hashBytes h]

/-- Witness for C9 at a concrete 4-byte value. -/
theorem claim_C9_witness :
    generateKeyId [0, 255, 16, 171] = strUpper (strTakeRight (specHex [0, 255, 16, 171]) 8)
    ∧ generatePeerId [0, 255, 16, 171] = "peer-" ++ strTake (specHex [0, 255, 16, 171]) 8 :=
  claim_C9 [0, 255, 16, 171] (by decide)

/-- C6 counterexample: the store holds `"peer-a"` touched at 100; importing
a duplicate touched at 50 keeps the imported (older) record, not the most
recently touched one — the claimed timestamp comparison does not happen. -/
theorem claim_C6_counterexample :
    (dupStore.getPeer "peer-a").map TrustRecord.trustedAt = some 100
    ∧ ((dupStore.importKnownPeers dupBundle 7).1.getPeer "peer-a").map TrustRecord.trustedAt = some 50 := by
  constructor <;> decide

/-- C6 amended: `importKnownPeers` stores every imported record under its
`peerId` unconditionally — an imported record replaces any existing record
with the same id regardless of either record's timestamps (shown here for a
single-record bundle over an arbitrary prior store). -/
theorem claim_C6 (m : IdentityManager) (bundle : List (String × PeersExportBody))
    (body : PeersExportBody) (pd : TrustRecordData) (now : Nat)
    (hb : mapGet bundle "lp2p-peers-export" = some body) (hp : body.peers = [pd]) :
    (m.importKnownPeers bundle now).1.getPeer (TrustRecord.fromJSON pd now).peerId = some (TrustRecord.fromJSON pd now)
    ∧ (m.importKnownPeers bundle now).2 = none := by
  simp only [IdentityManager.importKnownPeers, hb, hp]
  constructor
  · simp [IdentityManager.getPeer, List.foldl, mapGet_mapSet_self]
  · trivial

/-- Witness for C6 (amended): importing the stale `"peer-a"` duplicate into
the concrete store replaces the fresher stored record. -/
theorem claim_C6_witness :
    (dupStore.importKnownPeers dupBundle 7).1.getPeer (TrustRecord.fromJSON staleRecordData 7).peerId = some (TrustRecord.fromJSON staleRecordData 7)
    ∧ (dupStore.importKnownPeers dupBundle 7).2 = none :=
  claim_C6 dupStore dupBundle _ staleRecordData 7 rfl rfl

/-- C3 counterexample: `sampleStore` caches `"KEYA"` for `"peer-x"`;
re-announcing `"peer-x"` with public key `"KEYB"` raises nothing (`addPeer`
has no failure path in the source) and silently overwrites the cached key. -/
theorem claim_C3_counterexample :
    (sampleStore.getPeer "peer-x").map TrustRecord.publicKey = some (some "KEYA")
    ∧ ((sampleStore.addPeer sampleInfoB none 200).getPeer "peer-x").map TrustRecord.publicKey = some (some "KEYB") := by
  constructor <;> decide

/-- C3 amended: `addPeer` performs no collision detection — when the
announced peer id matches an existing record but the announced (truthy)
public key differs from the cached one, the call succeeds and the cached
`publicKey` is silently overwritten with the announced value. -/
theorem claim_C3 (m : IdentityManager) (info : PeerInfo) (ib : Option String)
    (now : Nat) (r : TrustRecord) (s : String) (h : m.getPeer info.id = some r)
    (hpk : info.publicKey = some s) (hs : s ≠ "") (_hdiff : r.publicKey ≠ some s) :
    ((m.addPeer info ib now).getPeer info.id).map TrustRecord.publicKey = some (some s) := by
  have hm : mapGet m.knownPeers info.id = some r := h
  simp only [IdentityManager.addPeer, IdentityManager.getPeer, hm, mapGet_mapSet_self]
  simp [jsOrOS, hpk, hs]

/-- Witness for C3 (amended) at the concrete collision. -/
theorem claim_C3_witness :
    ((sampleStore.addPeer sampleInfoB none 200).getPeer sampleInfoB.id).map TrustRecord.publicKey = some (some "KEYB") :=
  claim_C3 sampleStore sampleInfoB none 200 sampleRecord "KEYB" rfl rfl (by decide) (by decide)

/-- C4: evaluating `PeerIdentity.generate` at a concrete 32-byte public-key
hash shows the stored `fingerprint` is the `short=true` rendering (first 8
byte-groups, here `"00:01:02:03:04:05:06:07"`), not the full-length 32-group
rendering of the 256-bit hash that the specification (and the repo design
notes) describe. -/
theorem claim_C4 :
    (PeerIdentity.generate "PUBKEY" "PRIVKEY" hashRange32 {} 1000).fingerprint = formatFingerprint hashRange32 true
    ∧ formatFingerprint hashRange32 true = "00:01:02:03:04:05:06:07"
    ∧ (PeerIdentity.generate "PUBKEY" "PRIVKEY" hashRange32 {} 1000).fingerprint ≠ formatFingerprint hashRange32 false := by
  refine ⟨rfl, by decide, by decide⟩

end LP2P
